import Mathlib

/-!
# CivicTrack geofenced issue reporting — verification development

A shallow embedding of the CivicTrack backend (Express + Mongoose) centred on
the geofenced submission and moderation engine:

* geometry utilities (`calculateDistance`, `isWithinRadius`,
  `generateBoundingBox`, `isValidCoordinates`) from `utils/geolocation.ts`;
* the Mongoose `Issue` schema, its `pre('save')` middleware and the
  `toggleVote` / `hasUserVoted` instance methods from `models/Issue.ts`;
* the Express route handlers `POST /api/v1/issues` (creation with geofence
  check), `PUT /api/v1/issues/:id` (status update), `POST /api/v1/issues/:id/flag`
  (flagging), `GET /api/v1/issues` and `GET /api/v1/admin/issues` (listing).

JavaScript numbers are modelled as real numbers, timestamps as `Nat`,
JavaScript string/number falsiness checks (`!x`) as equality with `""` / `0`,
and MongoDB documents as Lean structures.  Fields never read by any handler
modelled here (images, tags, views, metadata, assignment) are omitted.
-/

namespace CivicTrack

open scoped Classical

/-! ## Geometry (`utils/geolocation.ts`) -/

/-- A latitude/longitude pair, as passed to the geometry helpers. -/
structure GeoPoint where
  latitude : ℝ
  longitude : ℝ

/-- Degrees to radians, as in `deg * Math.PI / 180`. -/
noncomputable def toRad (deg : ℝ) : ℝ := deg * Real.pi / 180

/-- Modelled from the spec: the source delegates to `getDistance` of the
third-party `geolib` package, whose code is not part of this repository.
The spec describes the distance as the haversine great-circle distance with
Earth radius 6371 km; the library returns metres, so the radius here is
6371000 m. -/
noncomputable def getDistanceMeters (p1 p2 : GeoPoint) : ℝ :=
  2 * 6371000 * Real.arcsin (Real.sqrt
    (Real.sin (toRad (p2.latitude - p1.latitude) / 2) ^ 2 +
      Real.cos (toRad p1.latitude) * Real.cos (toRad p2.latitude) *
        Real.sin (toRad (p2.longitude - p1.longitude) / 2) ^ 2))

/-- Function `calculateDistance` from `utils/geolocation.ts`: the library distance in
metres divided by 1000. -/
noncomputable def calculateDistance (p1 p2 : GeoPoint) : ℝ :=
  getDistanceMeters p1 p2 / 1000

/-- Function `isWithinRadius` from `utils/geolocation.ts`:
`calculateDistance(center, point) <= radiusKm`. -/
def isWithinRadius (center point : GeoPoint) (radiusKm : ℝ) : Prop :=
  calculateDistance center point ≤ radiusKm

/-- Function `isValidCoordinates` from `utils/geolocation.ts`. -/
def isValidCoordinates (latitude longitude : ℝ) : Prop :=
  -90 ≤ latitude ∧ latitude ≤ 90 ∧ -180 ≤ longitude ∧ longitude ≤ 180

/-- Structure `GeoBounds` from `types`. -/
structure GeoBounds where
  north : ℝ
  south : ℝ
  east : ℝ
  west : ℝ

/-- The longitude divisor `111 * Math.cos(center.latitude * Math.PI / 180)`
computed by `generateBoundingBox`. -/
noncomputable def bbCosDivisor (center : GeoPoint) : ℝ :=
  111 * Real.cos (center.latitude * Real.pi / 180)

/-- Function `generateBoundingBox` from `utils/geolocation.ts`:
`latDegreesPerKm = 1/111`, `lngDegreesPerKm = 1/(111*cos(lat*π/180))`,
deltas are `radiusKm` times those factors. No clamping is performed. -/
noncomputable def generateBoundingBox (center : GeoPoint) (radiusKm : ℝ) :
    GeoBounds :=
  { north := center.latitude + radiusKm * (1 / 111)
    south := center.latitude - radiusKm * (1 / 111)
    east := center.longitude + radiusKm * (1 / bbCosDivisor center)
    west := center.longitude - radiusKm * (1 / bbCosDivisor center) }

/-! ## Data model (`models/Issue.ts`, `models/User.ts`, `models/StatusHistory.ts`) -/

/-- A location object `{latitude, longitude, address}` as stored on users
(`defaultLocation`) and on issues (`location`; its optional `district`/`ward`
sub-fields are read by no handler and omitted). -/
structure Location where
  latitude : ℝ
  longitude : ℝ
  address : String

/-- The slice of the Mongoose `User` document read by the issue handlers. -/
structure UserRec where
  id : String
  role : String
  defaultLocation : Option Location
  preferredRadiusKm : ℝ

/-- The Mongoose `Issue` document.  `flaggedBy` is a single user reference in
the schema (not a list), there is no flag count, no hidden bit besides
`isFlagged`, and no embedded status history.  Timestamps are `Nat`.
Fields never read by the modelled handlers (images, tags, views, metadata,
`assignedTo`, `isVerified`, `estimatedResolutionDate`, `resolutionNotes`)
are omitted. -/
structure Issue where
  id : String
  title : String
  description : String
  category : String
  priority : String
  status : String
  location : Location
  reportedBy : String
  upvotes : List String
  downvotes : List String
  isPublic : Bool
  isFlagged : Bool
  flaggedReason : Option String
  flaggedBy : Option String
  flaggedAt : Option Nat
  actualResolutionDate : Option Nat
  createdAt : Nat

/-- A document of the separate `StatusHistory` collection
(`models/StatusHistory.ts`). -/
structure StatusHistoryRec where
  issueId : String
  previousStatus : String
  newStatus : String
  changedBy : String
  createdAt : Nat

/-- The MongoDB state visible to the modelled handlers: the `issues`
collection and the `statushistories` collection. -/
structure DB where
  issues : List Issue
  statusHistory : List StatusHistoryRec

/-- The `status` enum of the issue schema, also the `validStatuses` list of
the `PUT /issues/:id` handler (both spell out the same six strings). -/
def validStatuses : List String :=
  ["reported", "in_review", "in_progress", "resolved", "closed", "rejected"]

/-- The `category` enum of the issue schema. -/
def validCategories : List String :=
  ["infrastructure", "environment", "safety", "utilities", "transportation",
   "housing", "health", "education", "other"]

/-- The `priority` enum of the issue schema. -/
def validPriorities : List String :=
  ["low", "medium", "high", "critical"]

/-- Schema validation run by Mongoose on `save` (string lengths after `trim`,
enum membership, coordinate ranges, required fields).  The image-URL regex
validator is omitted together with the `images` field. -/
def validIssue (i : Issue) : Prop :=
  10 ≤ i.title.length ∧ i.title.length ≤ 200 ∧
  20 ≤ i.description.length ∧ i.description.length ≤ 2000 ∧
  i.category ∈ validCategories ∧
  i.priority ∈ validPriorities ∧
  i.status ∈ validStatuses ∧
  -90 ≤ i.location.latitude ∧ i.location.latitude ≤ 90 ∧
  -180 ≤ i.location.longitude ∧ i.location.longitude ≤ 180 ∧
  i.location.address ≠ "" ∧ i.location.address.length ≤ 500 ∧
  i.reportedBy ≠ "" ∧
  (∀ r, i.flaggedReason = some r → r.length ≤ 500)

/-- The Mongoose `trim: true` setter: strip leading and trailing whitespace.
Implemented by structural recursion over the character list so that concrete
instances evaluate inside the kernel. -/
def jsTrim (s : String) : String :=
  ⟨((s.data.dropWhile Char.isWhitespace).reverse.dropWhile
      Char.isWhitespace).reverse⟩

/-- JavaScript truthiness of an optional string parameter
(`undefined` and `""` are falsy). -/
def truthy : Option String → Bool
  | some v => v != ""
  | none => false

/-! ## Issue document methods and middleware (`models/Issue.ts`) -/

/-- First `if` of the `pre('save')` middleware: stamp the resolution date
when a modified status equals `resolved` and the date is unset.
`statusModified` models Mongoose's `isModified('status')`;
`!this.actualResolutionDate` is a falsiness check on the optional date. -/
def preSaveStep1 (statusModified : Bool) (now : Nat) (i : Issue) : Issue :=
  if statusModified ∧ i.status == "resolved" ∧ i.actualResolutionDate = none
  then { i with actualResolutionDate := some now } else i

/-- Second `if` of the middleware: clear the resolution date when a modified
status differs from `resolved`. -/
def preSaveStep2 (statusModified : Bool) (i : Issue) : Issue :=
  if statusModified ∧ i.status != "resolved" ∧ i.actualResolutionDate ≠ none
  then { i with actualResolutionDate := none } else i

/-- Third `if` of the middleware: stamp `flaggedAt` when a modified
`isFlagged` is true and the date is unset. -/
def preSaveStep3 (isFlaggedModified : Bool) (now : Nat) (i : Issue) : Issue :=
  if isFlaggedModified ∧ i.isFlagged ∧ i.flaggedAt = none
  then { i with flaggedAt := some now } else i

/-- Fourth `if` of the middleware: clear all flag data when a modified
`isFlagged` is false. -/
def preSaveStep4 (isFlaggedModified : Bool) (i : Issue) : Issue :=
  if isFlaggedModified ∧ ¬ i.isFlagged
  then { i with flaggedAt := none, flaggedReason := none, flaggedBy := none }
  else i

/-- The `pre('save')` middleware of the issue schema: its four `if`
statements applied in source order. -/
def preSave (statusModified isFlaggedModified : Bool) (now : Nat)
    (i : Issue) : Issue :=
  preSaveStep4 isFlaggedModified
    (preSaveStep3 isFlaggedModified now
      (preSaveStep2 statusModified (preSaveStep1 statusModified now i)))

/-- Method `issueSchema.methods.hasUserVoted`. -/
def hasUserVoted (i : Issue) (userId : String) : Option String :=
  if i.upvotes.any (fun v => v == userId) then some "upvote"
  else if i.downvotes.any (fun v => v == userId) then some "downvote"
  else none

/-- Method `issueSchema.methods.toggleVote`: remove the user from both arrays, then
push to the array matching `voteType`. -/
def toggleVote (i : Issue) (userId : String) (voteType : String) : Issue :=
  let up := i.upvotes.filter (fun v => !(v == userId))
  let down := i.downvotes.filter (fun v => !(v == userId))
  if voteType == "upvote"
  then { i with upvotes := up ++ [userId], downvotes := down }
  else { i with upvotes := up, downvotes := down ++ [userId] }

/-! ## `POST /api/v1/issues` — creation with geofence check -/

/-- The request body of `POST /api/v1/issues` (fields the handler reads;
`priority` defaults through `priority || 'medium'` so `""` stands for an
absent value; `images`/`tags` are not modelled). -/
structure CreatePayload where
  title : String
  description : String
  category : String
  priority : String
  location : Option Location
  isPublic : Bool
  reportedBy : String

/-- JavaScript rounding `Math.round(x)`: half-up rounding. -/
noncomputable def jsRound (x : ℝ) : ℝ := (⌊x + 1 / 2⌋ : ℤ)

/-- The rounding `Math.round(distance * 100) / 100` — the two-decimal rounding applied to
the distance reported in the geofence violation payload. -/
noncomputable def jsRound2 (x : ℝ) : ℝ := jsRound (x * 100) / 100

/-- Possible outcomes of the `POST /api/v1/issues` handler. -/
inductive CreateResult where
  | missingFields
  | invalidLocation
  | userNotFound
  | locationNotSet
  | geofenceViolation (distance maxAllowed : ℝ)
      (userLocation issueLocation : Location)
  | validationFailed
  | created (issue : Issue)

/-- The new `Issue` document built by the handler on the success path
(status defaults to `"reported"`, the moderation and vote fields start
empty, Mongoose trims the title/description/address setters). -/
def newIssueOf (p : CreatePayload) (loc : Location) (newId : String)
    (now : Nat) : Issue :=
  { id := newId
    title := jsTrim p.title
    description := jsTrim p.description
    category := p.category
    priority := if p.priority = "" then "medium" else p.priority
    status := "reported"
    location := { latitude := loc.latitude, longitude := loc.longitude,
                  address := jsTrim loc.address }
    reportedBy := p.reportedBy
    upvotes := []
    downvotes := []
    isPublic := p.isPublic
    isFlagged := false
    flaggedReason := none
    flaggedBy := none
    flaggedAt := none
    actualResolutionDate := none
    createdAt := now }

/-- The `POST /api/v1/issues` handler.  `user` is the result of
`User.findById(reportedBy)`.  In order: required-field falsiness check,
location sub-field falsiness check, user lookup, `defaultLocation`
falsiness check, geofence check with
`maxAllowedRadius = Math.min(user.preferredRadiusKm || 5, 5)`, then
construction and save of the new issue. -/
noncomputable def createIssue (user : Option UserRec) (p : CreatePayload)
    (newId : String) (now : Nat) (issues : List Issue) :
    CreateResult × List Issue :=
  match p.location with
  | none => (.missingFields, issues)
  | some loc =>
    if p.title = "" ∨ p.description = "" ∨ p.category = "" ∨ p.reportedBy = ""
    then (.missingFields, issues)
    else if loc.latitude = 0 ∨ loc.longitude = 0 ∨ loc.address = ""
    then (.invalidLocation, issues)
    else
      match user with
      | none => (.userNotFound, issues)
      | some u =>
        match u.defaultLocation with
        | none => (.locationNotSet, issues)
        | some uloc =>
          if uloc.latitude = 0 ∨ uloc.longitude = 0
          then (.locationNotSet, issues)
          else
            let distance := calculateDistance
              ⟨uloc.latitude, uloc.longitude⟩ ⟨loc.latitude, loc.longitude⟩
            let maxAllowedRadius :=
              min (if u.preferredRadiusKm = 0 then 5 else u.preferredRadiusKm) 5
            if maxAllowedRadius < distance then
              (.geofenceViolation (jsRound2 distance) maxAllowedRadius
                  uloc loc, issues)
            else
              let newIssue := newIssueOf p loc newId now
              if validIssue newIssue
              then (.created newIssue, issues ++ [newIssue])
              else (.validationFailed, issues)

/-! ## `PUT /api/v1/issues/:id` — status update -/

/-- Possible outcomes of the `PUT /api/v1/issues/:id` handler.
`invalidStatus` is the 400 response for a status outside `validStatuses`;
`validationFailed` models `runValidators` rejecting an update (only the
`priority` enum can fail it, the handler pre-validates `status`). -/
inductive UpdateResult where
  | invalidStatus
  | notFound
  | validationFailed
  | ok (issue : Issue)

/-- The field update applied by `Issue.findByIdAndUpdate` in the PUT handler:
`updateData` carries `status` and `priority` only when truthy.  Being a
direct update it bypasses the `pre('save')` middleware.  (`tags` and the
schema-less `reviewedAt` write are not modelled.) -/
def applyStatusUpdate (statusOpt priorityOpt : Option String) (i : Issue) :
    Issue :=
  let i1 := if truthy statusOpt then { i with status := statusOpt.getD "" }
            else i
  if truthy priorityOpt then { i1 with priority := priorityOpt.getD "" }
  else i1

/-- The `PUT /api/v1/issues/:id` handler: reject a truthy status outside
`validStatuses`, look the issue up, let `runValidators` check an updated
`priority` against its enum, and otherwise overwrite the record in place.
No transition graph is consulted and nothing is written to the
`StatusHistory` collection. -/
def updateIssue (issues : List Issue) (id : String)
    (statusOpt priorityOpt : Option String) : UpdateResult × List Issue :=
  if truthy statusOpt ∧ statusOpt.getD "" ∉ validStatuses
  then (.invalidStatus, issues)
  else
    match issues.find? (fun i => i.id == id) with
    | none => (.notFound, issues)
    | some found =>
      if truthy priorityOpt ∧ priorityOpt.getD "" ∉ validPriorities
      then (.validationFailed, issues)
      else
        (.ok (applyStatusUpdate statusOpt priorityOpt found),
         issues.map (fun i =>
           if i.id == id then applyStatusUpdate statusOpt priorityOpt i else i))

/-! ## `POST /api/v1/issues/:id/flag` — flagging -/

/-- Possible outcomes of the flag handler.  There is no duplicate-flag
outcome: the handler has no such check. -/
inductive FlagResult where
  | missingFields
  | notFound
  | validationFailed
  | ok (issue : Issue)

/-- The field update applied by `Issue.findByIdAndUpdate` in the flag
handler: unconditionally sets `isFlagged` and overwrites
`flaggedReason`/`flaggedBy`/`flaggedAt`. -/
def applyFlag (reason reportedBy : String) (now : Nat) (i : Issue) : Issue :=
  { i with isFlagged := true, flaggedReason := some reason,
           flaggedBy := some reportedBy, flaggedAt := some now }

/-- The `POST /api/v1/issues/:id/flag` handler: falsiness check on `reason`
and `reportedBy`, lookup, `runValidators` length check on `flaggedReason`,
then the overwrite.  No flagger set, count, threshold or duplicate guard
exists. -/
def flagIssue (issues : List Issue) (id reason reportedBy : String)
    (now : Nat) : FlagResult × List Issue :=
  if reason == "" || reportedBy == "" then (.missingFields, issues)
  else
    match issues.find? (fun i => i.id == id) with
    | none => (.notFound, issues)
    | some found =>
      if 500 < reason.length then (.validationFailed, issues)
      else
        (.ok (applyFlag reason reportedBy now found),
         issues.map (fun i =>
           if i.id == id then applyFlag reason reportedBy now i else i))

/-! ## Handlers as actions on the whole database

None of the route handlers ever inserts into the `StatusHistory`
collection (the model is exported but has no call site in the server), so
the database-level versions pass `statusHistory` through unchanged. -/

/-- Handler `POST /api/v1/issues` on the full database state. -/
noncomputable def createIssueDB (user : Option UserRec) (p : CreatePayload)
    (newId : String) (now : Nat) (db : DB) : CreateResult × DB :=
  ((createIssue user p newId now db.issues).1,
   { issues := (createIssue user p newId now db.issues).2,
     statusHistory := db.statusHistory })

/-- Handler `PUT /api/v1/issues/:id` on the full database state. -/
def updateIssueDB (db : DB) (id : String)
    (statusOpt priorityOpt : Option String) : UpdateResult × DB :=
  ((updateIssue db.issues id statusOpt priorityOpt).1,
   { issues := (updateIssue db.issues id statusOpt priorityOpt).2,
     statusHistory := db.statusHistory })

/-- Handler `POST /api/v1/issues/:id/flag` on the full database state. -/
def flagIssueDB (db : DB) (id reason reportedBy : String) (now : Nat) :
    FlagResult × DB :=
  ((flagIssue db.issues id reason reportedBy now).1,
   { issues := (flagIssue db.issues id reason reportedBy now).2,
     statusHistory := db.statusHistory })

/-! ## `GET /api/v1/issues` and `GET /api/v1/admin/issues` — listing -/

/-- The `sort({ createdAt: -1 })` order: newest first. -/
def createdAtDesc (a b : Issue) : Prop := b.createdAt ≤ a.createdAt

instance : DecidableRel createdAtDesc := fun a b =>
  Nat.decLe b.createdAt a.createdAt

instance : IsTotal Issue createdAtDesc :=
  ⟨fun a b => (Nat.le_total a.createdAt b.createdAt).symm⟩

instance : IsTrans Issue createdAtDesc :=
  ⟨fun _ _ _ hab hbc => le_trans hbc hab⟩

/-- The pipeline `Issue.find(query).sort(createdAt descending)` — the matched documents in
descending `createdAt` order. -/
def sortByCreatedAtDesc (l : List Issue) : List Issue :=
  List.insertionSort createdAtDesc l

/-- One optional conjunct of the MongoDB query object: filter only when the
handler added the corresponding condition. -/
def applyOptFilter (cond : Bool) (g : Issue → Bool) (l : List Issue) :
    List Issue :=
  if cond then l.filter g else l

/-- Query parameters accepted by `GET /api/v1/issues`.  The handler
destructures `latitude`, `longitude` and `radius` but never uses them. -/
structure IssuesQuery where
  page : Nat
  limit : Nat
  category : Option String
  status : Option String
  priority : Option String
  search : Option String
  latitude : Option ℝ
  longitude : Option ℝ
  radius : Option ℝ
  userId : Option String

/-- The documents matching the MongoDB `query` object built by
`GET /api/v1/issues`.  With a truthy `userId` it matches `reportedBy` (and
applies no flag filter); otherwise it matches `isFlagged: { $ne: true }`.
`category`/`status`/`priority` filter when truthy and neither `"all"` nor
`"undefined"`; `search` adds a `$text` match (the MongoDB text-search
predicate lives in the database engine and is abstracted as the
`textMatch` parameter).  The `latitude`/`longitude`/`radius` parameters
are destructured by the handler but never used. -/
def publicQueryMatches (textMatch : String → Issue → Bool)
    (issues : List Issue) (q : IssuesQuery) : List Issue :=
  applyOptFilter
    (truthy q.search && q.search.getD "" != "undefined")
    (textMatch (q.search.getD ""))
    (applyOptFilter
      (truthy q.priority && q.priority.getD "" != "all" &&
        q.priority.getD "" != "undefined")
      (fun i => i.priority == q.priority.getD "")
      (applyOptFilter
        (truthy q.status && q.status.getD "" != "all" &&
          q.status.getD "" != "undefined")
        (fun i => i.status == q.status.getD "")
        (applyOptFilter
          (truthy q.category && q.category.getD "" != "all" &&
            q.category.getD "" != "undefined")
          (fun i => i.category == q.category.getD "")
          (if truthy q.userId
           then issues.filter (fun i => i.reportedBy == q.userId.getD "")
           else issues.filter (fun i => !i.isFlagged)))))

/-- The `GET /api/v1/issues` handler: the matched documents sorted by
`createdAt` descending and paginated by `skip = (page-1)*limit` /
`limit(limit)`. -/
def getIssues (textMatch : String → Issue → Bool) (issues : List Issue)
    (q : IssuesQuery) : List Issue :=
  ((sortByCreatedAtDesc (publicQueryMatches textMatch issues q)).drop
      ((q.page - 1) * q.limit)).take q.limit

/-- Query parameters accepted by `GET /api/v1/admin/issues`. -/
structure AdminIssuesQuery where
  page : Nat
  limit : Nat
  category : Option String
  status : Option String
  priority : Option String
  search : Option String

/-- The documents matching the query object built by
`GET /api/v1/admin/issues`: same filters (checked against `"all"` only),
but no flag exclusion — admins see every issue. -/
def adminQueryMatches (textMatch : String → Issue → Bool)
    (issues : List Issue) (q : AdminIssuesQuery) : List Issue :=
  applyOptFilter (truthy q.search) (textMatch (q.search.getD ""))
    (applyOptFilter (truthy q.priority && q.priority.getD "" != "all")
      (fun i => i.priority == q.priority.getD "")
      (applyOptFilter (truthy q.status && q.status.getD "" != "all")
        (fun i => i.status == q.status.getD "")
        (applyOptFilter (truthy q.category && q.category.getD "" != "all")
          (fun i => i.category == q.category.getD "")
          issues)))

/-- The `GET /api/v1/admin/issues` handler: matched documents sorted by
`createdAt` descending and paginated. -/
def getAdminIssues (textMatch : String → Issue → Bool) (issues : List Issue)
    (q : AdminIssuesQuery) : List Issue :=
  ((sortByCreatedAtDesc (adminQueryMatches textMatch issues q)).drop
      ((q.page - 1) * q.limit)).take q.limit


/-! ## Concrete sample data used in the instance theorems -/

/-- A concrete persisted issue in the initial `reported` state. -/
def sampleIssue : Issue :=
  { id := "issue1"
    title := "Pothole on Main Street corner"
    description := "Large pothole causing significant traffic delays daily."
    category := "infrastructure"
    priority := "medium"
    status := "reported"
    location := { latitude := 40.7128, longitude := -74.006,
                  address := "123 Main St" }
    reportedBy := "user1"
    upvotes := []
    downvotes := []
    isPublic := true
    isFlagged := false
    flaggedReason := none
    flaggedBy := none
    flaggedAt := none
    actualResolutionDate := none
    createdAt := 100 }

/-- Concrete reporter location for exercising the creation handler. -/
def c1uloc : Location :=
  { latitude := 40.7128, longitude := -74.006,
    address := "123 Main St, New York, NY 10001" }

/-- Concrete reporter with the maximal preferred radius of 50 km. -/
def c1user : UserRec :=
  { id := "user1", role := "user", defaultLocation := some c1uloc,
    preferredRadiusKm := 50 }

/-- Concrete creation payload located exactly at the reporter's location. -/
def c1payload : CreatePayload :=
  { title := "Pothole on Main Street corner"
    description := "Large pothole causing significant traffic delays daily."
    category := "infrastructure"
    priority := ""
    location := some c1uloc
    isPublic := true
    reportedBy := "user1" }

/-- A flagged companion issue for exercising the public listing. -/
def c7flagged : Issue :=
  { sampleIssue with id := "issue2", isFlagged := true, createdAt := 200 }

/-- A public listing request with no filters at all. -/
def c7q : IssuesQuery :=
  ⟨1, 10, none, none, none, none, none, none, none, none⟩

/-- An issue on the equator at longitude 180 — roughly 20 000 km away from
the origin. -/
def c7far : Issue :=
  { sampleIssue with
      id := "far1"
      location := { latitude := 0, longitude := 180,
                    address := "Antipode Point" } }

/-- A listing request that supplies a center `(0,0)` and a 1 km radius. -/
def c7geoQuery : IssuesQuery :=
  ⟨1, 10, none, none, none, none, some 0, some 0, some 1, none⟩

/-! ### Geometry lemmas -/

/-- The haversine distance from a point to itself is zero. -/
theorem calculateDistance_self (p : GeoPoint) : calculateDistance p p = 0 := by
  simp [calculateDistance, getDistanceMeters, toRad]

/-- The haversine distance is symmetric. -/
theorem calculateDistance_symm (p1 p2 : GeoPoint) :
    calculateDistance p1 p2 = calculateDistance p2 p1 := by
  have key : ∀ x y : ℝ,
      Real.sin ((x - y) * Real.pi / 180 / 2) ^ 2 =
        Real.sin ((y - x) * Real.pi / 180 / 2) ^ 2 := by
    intro x y
    rw [show (x - y) * Real.pi / 180 / 2 = -((y - x) * Real.pi / 180 / 2) by
      ring]
    rw [Real.sin_neg, neg_sq]
  unfold calculateDistance getDistanceMeters toRad
  rw [key p2.latitude p1.latitude, key p2.longitude p1.longitude]
  ring_nf

/-! ## Helper lemmas -/

/-- Removing every occurrence of `u` leaves a list in which `u` is not
counted. -/
theorem count_filter_ne (l : List String) (u : String) :
    (l.filter (fun v => !(v == u))).count u = 0 := by
  rw [List.count_eq_zero]
  intro hmem
  rw [List.mem_filter] at hmem
  simp at hmem

/-- After removing every occurrence of `u`, an `any (· == u)` scan fails. -/
theorem any_filter_ne (l : List String) (u : String) :
    (l.filter (fun v => !(v == u))).any (fun v => v == u) = false := by
  rw [Bool.eq_false_iff]
  intro hany
  rw [List.any_eq_true] at hany
  obtain ⟨x, hx, hbeq⟩ := hany
  rw [List.mem_filter] at hx
  rw [eq_of_beq hbeq] at hx
  simp at hx

/-- The divisor `bbCosDivisor` vanishes at the north pole: no clamping happens. -/
theorem bbCosDivisor_north_pole : bbCosDivisor ⟨90, 0⟩ = 0 := by
  show 111 * Real.cos ((90 : ℝ) * Real.pi / 180) = 0
  rw [show (90 : ℝ) * Real.pi / 180 = Real.pi / 2 by ring,
    Real.cos_pi_div_two, mul_zero]

/-- The divisor `bbCosDivisor` vanishes at the south pole as well. -/
theorem bbCosDivisor_south_pole : bbCosDivisor ⟨-90, 0⟩ = 0 := by
  show 111 * Real.cos ((-90 : ℝ) * Real.pi / 180) = 0
  rw [show (-90 : ℝ) * Real.pi / 180 = -(Real.pi / 2) by ring,
    Real.cos_neg, Real.cos_pi_div_two, mul_zero]

/-! ## C8 — distance is reflexive-zero, symmetric, and `isWithinRadius`
matches the `≤` comparison -/

/-- C8: for valid coordinate pairs `a` and `b`, `calculateDistance a a = 0`,
`calculateDistance a b = calculateDistance b a`, and
`isWithinRadius center point r` holds exactly when
`calculateDistance center point ≤ r`. -/
theorem C8_distance_properties (a b : GeoPoint) (r : ℝ)
    (ha : isValidCoordinates a.latitude a.longitude)
    (hb : isValidCoordinates b.latitude b.longitude) :
    calculateDistance a a = 0 ∧
    calculateDistance a b = calculateDistance b a ∧
    (isWithinRadius a b r ↔ calculateDistance a b ≤ r) :=
  ⟨calculateDistance_self a, calculateDistance_symm a b, Iff.rfl⟩

/-- Witness for C8 at the origin point and radius 1. -/
theorem C8_distance_properties_witness :
    isValidCoordinates (0 : ℝ) 0 ∧
    (calculateDistance ⟨0, 0⟩ ⟨0, 0⟩ = 0 ∧
     calculateDistance ⟨0, 0⟩ ⟨0, 0⟩ = calculateDistance ⟨0, 0⟩ ⟨0, 0⟩ ∧
     (isWithinRadius ⟨0, 0⟩ ⟨0, 0⟩ 1 ↔ calculateDistance ⟨0, 0⟩ ⟨0, 0⟩ ≤ 1)) :=
  have hv : isValidCoordinates (0 : ℝ) 0 := by norm_num [isValidCoordinates]
  ⟨hv, C8_distance_properties ⟨0, 0⟩ ⟨0, 0⟩ 1 hv hv⟩

/-! ## C9 — bounding box: formulas match, but there is no pole clamping -/

/-- C9 counterexample: the claim says the longitude divisor
`111·cos(lat·π/180)` is clamped away from zero near the poles; at
latitude 90 the divisor computed by `generateBoundingBox` is exactly 0, so
no clamping exists. -/
theorem C9_no_clamping_counterexample :
    bbCosDivisor ⟨90, 0⟩ = 0 ∧
    (generateBoundingBox ⟨90, 0⟩ 5).east = 5 * (1 / bbCosDivisor ⟨90, 0⟩) :=
  ⟨bbCosDivisor_north_pole, by
    show (0 : ℝ) + 5 * (1 / bbCosDivisor ⟨90, 0⟩) = 5 * (1 / bbCosDivisor ⟨90, 0⟩)
    rw [zero_add]⟩

/-- C9 (amended): `generateBoundingBox` computes `latDelta = radiusKm/111`
and `lngDelta = radiusKm/(111·cos(lat·π/180))` exactly as the claim says,
but performs no clamping of the cosine factor: at latitude ±90 the divisor
is exactly 0 (in JavaScript floating point, `cos(π/2) ≈ 6.1e-17`, making
`lngDelta` astronomically large rather than clamped). -/
theorem C9_boundingBox_formulas_no_clamp (center : GeoPoint) (radiusKm : ℝ) :
    (generateBoundingBox center radiusKm).north =
      center.latitude + radiusKm / 111 ∧
    (generateBoundingBox center radiusKm).south =
      center.latitude - radiusKm / 111 ∧
    (generateBoundingBox center radiusKm).east =
      center.longitude + radiusKm / bbCosDivisor center ∧
    (generateBoundingBox center radiusKm).west =
      center.longitude - radiusKm / bbCosDivisor center ∧
    bbCosDivisor ⟨90, 0⟩ = 0 ∧ bbCosDivisor ⟨-90, 0⟩ = 0 := by
  refine ⟨?_, ?_, ?_, ?_, bbCosDivisor_north_pole, bbCosDivisor_south_pole⟩ <;>
    simp [generateBoundingBox, mul_one_div, div_eq_mul_inv]

/-! ## C10 — `toggleVote` leaves the user in exactly the chosen list -/

/-- C10: after `toggleVote userId voteType`, the user occurs exactly once in
the list matching `voteType` and zero times in the other list — for any
starting state, so repeated calls can never duplicate an id or leave a user
in both lists — and `hasUserVoted` subsequently reports the new vote. -/
theorem C10_toggleVote_exclusive (i : Issue) (u vt : String) :
    ((toggleVote i u vt).upvotes.count u
      = if vt == "upvote" then 1 else 0) ∧
    ((toggleVote i u vt).downvotes.count u
      = if vt == "upvote" then 0 else 1) ∧
    (hasUserVoted (toggleVote i u vt) u
      = some (if vt == "upvote" then "upvote" else "downvote")) := by
  unfold toggleVote hasUserVoted
  cases hvt : (vt == "upvote") with
  | true =>
    refine ⟨?_, ?_, ?_⟩ <;>
      simp [hvt, List.count_append, count_filter_ne, any_filter_ne]
  | false =>
    refine ⟨?_, ?_, ?_⟩ <;>
      simp [hvt, List.count_append, count_filter_ne, any_filter_ne]

/-! ## C1 — geofence enforcement on issue creation -/

/-- C1: for a `createIssue` call whose payload passes the handler's field
checks and whose reporter has a registered location and a nonzero preferred
radius, the enforced radius is `min(preferredRadiusKm, 5)` (so a preferred
radius of 50 is capped to 5); when the distance exceeds it the call fails
with the structured geofence-violation payload (rounded distance, effective
radius, reporter location, issue location) and the issues collection is
unchanged, and otherwise (for a schema-valid record) the new issue is
appended. -/
theorem C1_geofence_enforced (u : UserRec) (p : CreatePayload)
    (loc uloc : Location) (newId : String) (now : Nat) (issues : List Issue)
    (hploc : p.location = some loc)
    (ht : p.title ≠ "") (hd : p.description ≠ "") (hc : p.category ≠ "")
    (hr : p.reportedBy ≠ "")
    (hlat : loc.latitude ≠ 0) (hlng : loc.longitude ≠ 0)
    (haddr : loc.address ≠ "")
    (huloc : u.defaultLocation = some uloc)
    (hulat : uloc.latitude ≠ 0) (hulng : uloc.longitude ≠ 0)
    (hpref : u.preferredRadiusKm ≠ 0) :
    (u.preferredRadiusKm = 50 → min u.preferredRadiusKm 5 = 5) ∧
    (min u.preferredRadiusKm 5 <
        calculateDistance ⟨uloc.latitude, uloc.longitude⟩
          ⟨loc.latitude, loc.longitude⟩ →
      createIssue (some u) p newId now issues =
        (CreateResult.geofenceViolation
          (jsRound2 (calculateDistance ⟨uloc.latitude, uloc.longitude⟩
            ⟨loc.latitude, loc.longitude⟩))
          (min u.preferredRadiusKm 5) uloc loc, issues)) ∧
    (calculateDistance ⟨uloc.latitude, uloc.longitude⟩
        ⟨loc.latitude, loc.longitude⟩ ≤ min u.preferredRadiusKm 5 →
      validIssue (newIssueOf p loc newId now) →
      createIssue (some u) p newId now issues =
        (CreateResult.created (newIssueOf p loc newId now),
         issues ++ [newIssueOf p loc newId now])) := by
  obtain ⟨pt, pd, pc, pp, ploc, ppub, prb⟩ := p
  obtain ⟨uid, urole, udl, upref⟩ := u
  simp only at hploc huloc ht hd hc hr hpref ⊢
  subst hploc
  subst huloc
  have hred : ∀ res : CreateResult × List Issue,
      (if min upref 5 <
          calculateDistance ⟨uloc.latitude, uloc.longitude⟩
            ⟨loc.latitude, loc.longitude⟩ then
        (CreateResult.geofenceViolation
          (jsRound2 (calculateDistance ⟨uloc.latitude, uloc.longitude⟩
            ⟨loc.latitude, loc.longitude⟩))
          (min upref 5) uloc loc, issues)
       else if validIssue
          (newIssueOf ⟨pt, pd, pc, pp, some loc, ppub, prb⟩ loc newId now) then
        (CreateResult.created
          (newIssueOf ⟨pt, pd, pc, pp, some loc, ppub, prb⟩ loc newId now),
         issues ++ [newIssueOf ⟨pt, pd, pc, pp, some loc, ppub, prb⟩ loc
           newId now])
       else (CreateResult.validationFailed, issues)) = res →
      createIssue (some ⟨uid, urole, some uloc, upref⟩)
        ⟨pt, pd, pc, pp, some loc, ppub, prb⟩ newId now issues = res := by
    intro res hres
    show (if pt = "" ∨ pd = "" ∨ pc = "" ∨ prb = "" then
        (CreateResult.missingFields, issues)
      else if loc.latitude = 0 ∨ loc.longitude = 0 ∨ loc.address = "" then
        (CreateResult.invalidLocation, issues)
      else if uloc.latitude = 0 ∨ uloc.longitude = 0 then
        (CreateResult.locationNotSet, issues)
      else _) = res
    rw [if_neg (by simp [ht, hd, hc, hr]),
      if_neg (by simp [hlat, hlng, haddr]),
      if_neg (by simp [hulat, hulng])]
    show (if min (if upref = 0 then 5 else upref) 5 < _ then _ else _) = res
    rw [if_neg hpref]
    exact hres
  refine ⟨?_, ?_, ?_⟩
  · intro h50
    rw [h50]
    exact min_eq_right (by norm_num)
  · intro hgt
    exact hred _ (by rw [if_pos hgt])
  · intro hle hvalid
    exact hred _ (by rw [if_neg (not_lt.mpr hle), if_pos hvalid])

/-- Witness for C1: a reporter with preferred radius 50 reporting at their
own registered location (distance 0 ≤ min 50 5 = 5) gets the issue
created. -/
theorem C1_geofence_enforced_witness :
    (c1payload.location = some c1uloc ∧ c1payload.title ≠ "" ∧
     c1payload.description ≠ "" ∧ c1payload.category ≠ "" ∧
     c1payload.reportedBy ≠ "" ∧ c1uloc.latitude ≠ 0 ∧
     c1uloc.longitude ≠ 0 ∧ c1uloc.address ≠ "" ∧
     c1user.defaultLocation = some c1uloc ∧ c1user.preferredRadiusKm ≠ 0) ∧
    createIssue (some c1user) c1payload "issue9" 7 [] =
      (CreateResult.created (newIssueOf c1payload c1uloc "issue9" 7),
       [newIssueOf c1payload c1uloc "issue9" 7]) := by
  have hlat : c1uloc.latitude ≠ 0 := by
    show (40.7128 : ℝ) ≠ 0
    norm_num
  have hlng : c1uloc.longitude ≠ 0 := by
    show (-74.006 : ℝ) ≠ 0
    norm_num
  have hpref : c1user.preferredRadiusKm ≠ 0 := by
    show (50 : ℝ) ≠ 0
    norm_num
  have hle : calculateDistance ⟨c1uloc.latitude, c1uloc.longitude⟩
      ⟨c1uloc.latitude, c1uloc.longitude⟩ ≤ min c1user.preferredRadiusKm 5 := by
    rw [calculateDistance_self]
    show (0 : ℝ) ≤ min (50 : ℝ) 5
    norm_num
  have hvalid : validIssue (newIssueOf c1payload c1uloc "issue9" 7) := by
    refine ⟨by decide, by decide, by decide, by decide, by decide, by decide,
      by decide, ?_, ?_, ?_, ?_, by decide, by decide, by decide, ?_⟩
    · show (-90 : ℝ) ≤ 40.7128
      norm_num
    · show (40.7128 : ℝ) ≤ 90
      norm_num
    · show (-180 : ℝ) ≤ -74.006
      norm_num
    · show (-74.006 : ℝ) ≤ 180
      norm_num
    · intro r hr
      exact Option.noConfusion hr
  refine ⟨⟨rfl, by decide, by decide, by decide, by decide, hlat, hlng,
    by decide, rfl, hpref⟩, ?_⟩
  exact (C1_geofence_enforced c1user c1payload c1uloc c1uloc "issue9" 7 []
    rfl (by decide) (by decide) (by decide) (by decide) hlat hlng
    (by decide) rfl hlat hlng hpref).2.2 hle hvalid

/-! ## C2 — there is no status-transition graph -/

/-- With a truthy status request, `applyStatusUpdate` overwrites `status`
and nothing else. -/
theorem applyStatusUpdate_status (s : String) (hs : s ≠ "") (i : Issue) :
    applyStatusUpdate (some s) none i = { i with status := s } := by
  unfold applyStatusUpdate
  rw [if_neg (show ¬ (truthy none = true) by simp [truthy]),
    if_pos (show truthy (some s) = true by simp [truthy, hs])]
  rfl

/-- C2 counterexample: the claim says a direct `REPORTED → RESOLVED` change
fails with `InvalidTransition`; the handler accepts it and overwrites the
status (its only check is membership of the six-element status list). -/
theorem C2_reported_to_resolved_succeeds :
    sampleIssue.status = "reported" ∧
    updateIssue [sampleIssue] "issue1" (some "resolved") none =
      (UpdateResult.ok { sampleIssue with status := "resolved" },
       [{ sampleIssue with status := "resolved" }]) :=
  ⟨rfl, rfl⟩

/-- C2 (amended): the status-change handler fails — leaving the record
unchanged — exactly when the requested status is not one of the six strings
of `validStatuses`; it consults no transition graph, so every pair of valid
statuses (including `REPORTED → RESOLVED`) is accepted and overwrites the
record's status. -/
theorem C2_status_update_no_transition_graph (issues : List Issue)
    (id s : String) (hs : s ≠ "") :
    (s ∉ validStatuses →
      updateIssue issues id (some s) none = (.invalidStatus, issues)) ∧
    (∀ i, s ∈ validStatuses →
      issues.find? (fun j => j.id == id) = some i →
      updateIssue issues id (some s) none =
        (.ok { i with status := s },
         issues.map (fun j =>
           if j.id == id then { j with status := s } else j))) := by
  constructor
  · intro hmem
    unfold updateIssue
    rw [if_pos ⟨by simp [truthy, hs], hmem⟩]
  · intro i hmem hfind
    unfold updateIssue
    rw [if_neg (by simp [hmem]), hfind]
    simp [truthy, applyStatusUpdate_status s hs]

/-- Witness for C2 at the valid edge `reported → in_review`. -/
theorem C2_status_update_witness :
    ("in_review" ≠ "" ∧ "in_review" ∈ validStatuses ∧
     [sampleIssue].find? (fun j => j.id == "issue1") = some sampleIssue) ∧
    updateIssue [sampleIssue] "issue1" (some "in_review") none =
      (UpdateResult.ok { sampleIssue with status := "in_review" },
       [{ sampleIssue with status := "in_review" }]) :=
  ⟨⟨by decide, by decide, rfl⟩,
   (C2_status_update_no_transition_graph [sampleIssue] "issue1" "in_review"
     (by decide)).2 sampleIssue (by decide) rfl⟩

/-! ## C5 — no status event is ever recorded -/

/-- C5 counterexample: the claim says every successful status change appends
exactly one `StatusEvent` and `statusHistory` is never empty; after a
successful `reported → in_review` change the `StatusHistory` collection is
still empty — no handler ever writes to it and issues embed no history. -/
theorem C5_no_status_event_recorded :
    (updateIssueDB ⟨[sampleIssue], []⟩ "issue1" (some "in_review") none).1 =
      UpdateResult.ok { sampleIssue with status := "in_review" } ∧
    (updateIssueDB ⟨[sampleIssue], []⟩ "issue1"
      (some "in_review") none).2.statusHistory.length = 0 :=
  ⟨rfl, rfl⟩

/-- C5 (amended): no status event is ever recorded — the status-update,
flag and creation handlers all leave the `StatusHistory` collection exactly
as it was (the `StatusHistory` model exists but has no call site), and the
issue documents carry no embedded history. -/
theorem C5_statusHistory_unchanged (db : DB) (id reason flagger : String)
    (statusOpt priorityOpt : Option String) (user : Option UserRec)
    (p : CreatePayload) (newId : String) (now : Nat) :
    (updateIssueDB db id statusOpt priorityOpt).2.statusHistory =
      db.statusHistory ∧
    (flagIssueDB db id reason flagger now).2.statusHistory =
      db.statusHistory ∧
    (createIssueDB user p newId now db).2.statusHistory = db.statusHistory :=
  ⟨rfl, rfl, rfl⟩

/-! ## C6 — `resolvedAt` is maintained only on the `save` path -/

/-- Update `applyStatusUpdate` (the `findByIdAndUpdate` payload of the PUT handler)
never touches `actualResolutionDate`. -/
theorem applyStatusUpdate_resolvedAt (sOpt pOpt : Option String) (j : Issue) :
    (applyStatusUpdate sOpt pOpt j).actualResolutionDate =
      j.actualResolutionDate := by
  unfold applyStatusUpdate
  split_ifs <;> rfl

/-- Mapping a pointwise `actualResolutionDate`-preserving function over the
collection preserves the column. -/
theorem map_resolvedAt_of_pointwise (l : List Issue) (g : Issue → Issue)
    (hg : ∀ j, (g j).actualResolutionDate = j.actualResolutionDate) :
    (l.map g).map (fun j => j.actualResolutionDate) =
      l.map (fun j => j.actualResolutionDate) := by
  induction l with
  | nil => rfl
  | cons hd tl ih => simp only [List.map_cons, ih, hg]

theorem updateIssue_preserves_resolvedAt (issues : List Issue) (id : String)
    (sOpt pOpt : Option String) :
    (updateIssue issues id sOpt pOpt).2.map
        (fun j => j.actualResolutionDate) =
      issues.map (fun j => j.actualResolutionDate) := by
  unfold updateIssue
  split
  · rfl
  · split
    · rfl
    · split
      · rfl
      · exact map_resolvedAt_of_pointwise issues _ (fun j => by
          split_ifs <;> simp [applyStatusUpdate_resolvedAt])

/-- C6 counterexample: the claim says every status change entering
`RESOLVED` sets the resolution timestamp; the admin PUT path accepts
`in_progress → resolved` yet leaves `actualResolutionDate` at `none`,
because `findByIdAndUpdate` bypasses the `pre('save')` middleware. -/
theorem C6_enter_resolved_without_timestamp :
    (updateIssue [{ sampleIssue with status := "in_progress" }] "issue1"
        (some "resolved") none).1 =
      UpdateResult.ok { sampleIssue with status := "resolved" } ∧
    ({ sampleIssue with status := "resolved" } : Issue).actualResolutionDate
      = none :=
  ⟨rfl, rfl⟩

/-- C6 (amended): the `pre('save')` middleware does maintain the invariant
on the save path — a modified status equal to `resolved` stamps
`actualResolutionDate` and a modified status different from `resolved`
clears it — but the status-change endpoint updates through
`findByIdAndUpdate`, which bypasses the middleware and leaves every
record's `actualResolutionDate` unchanged, so the invariant does not hold
regardless of which operation performed the change. -/
theorem C6_resolvedAt_only_on_save_path (i : Issue) (now : Nat) (fm : Bool)
    (issues : List Issue) (id : String) (statusOpt priorityOpt : Option String) :
    (i.status = "resolved" → i.actualResolutionDate = none →
      (preSave true fm now i).actualResolutionDate = some now) ∧
    (i.status ≠ "resolved" →
      (preSave true fm now i).actualResolutionDate = none) ∧
    ((updateIssue issues id statusOpt priorityOpt).2.map
        (fun j => j.actualResolutionDate) =
      issues.map (fun j => j.actualResolutionDate)) := by
  have h3 : ∀ (b : Bool) (m : Nat) (j : Issue),
      (preSaveStep3 b m j).actualResolutionDate = j.actualResolutionDate := by
    intro b m j
    unfold preSaveStep3
    split_ifs <;> rfl
  have h4 : ∀ (b : Bool) (j : Issue),
      (preSaveStep4 b j).actualResolutionDate = j.actualResolutionDate := by
    intro b j
    unfold preSaveStep4
    split_ifs <;> rfl
  refine ⟨?_, ?_, updateIssue_preserves_resolvedAt issues id statusOpt priorityOpt⟩
  · intro hres hard
    unfold preSave
    rw [h4, h3]
    have h1 : preSaveStep1 true now i =
        { i with actualResolutionDate := some now } := by
      unfold preSaveStep1
      rw [if_pos ⟨rfl, by simp [hres], hard⟩]
    rw [h1]
    unfold preSaveStep2
    rw [if_neg (by simp [hres])]
  · intro hne
    unfold preSave
    rw [h4, h3]
    have h1 : preSaveStep1 true now i = i := by
      unfold preSaveStep1
      rw [if_neg (by simp [hne])]
    rw [h1]
    unfold preSaveStep2
    by_cases hard : i.actualResolutionDate = none
    · rw [if_neg (by simp [hard])]
      exact hard
    · rw [if_pos ⟨rfl, by simp [hne], hard⟩]

/-- Witness for C6: the middleware stamps a resolved issue that lacks a
timestamp, clears it on a non-resolved status, and a concrete PUT update
leaves the timestamp column untouched. -/
theorem C6_resolvedAt_only_on_save_path_witness :
    (({ sampleIssue with status := "resolved" } : Issue).status = "resolved" ∧
     ({ sampleIssue with status := "resolved" } : Issue).actualResolutionDate
       = none) ∧
    (preSave true false 42
      { sampleIssue with status := "resolved" }).actualResolutionDate =
      some 42 :=
  ⟨⟨rfl, rfl⟩,
   (C6_resolvedAt_only_on_save_path { sampleIssue with status := "resolved" }
     42 false [] "issue1" none none).1 rfl rfl⟩

/-! ## C3 / C4 — flagging: immediate hide, no count, no duplicate guard -/

/-- For a truthy reason and flagger and a reason within the length
validator, the flag handler unconditionally succeeds and overwrites the
single flag slot of the matched issue. -/
theorem flagIssue_eq (issues : List Issue) (id reason flagger : String)
    (now : Nat) (hr : reason ≠ "") (hf : flagger ≠ "")
    (hlen : reason.length ≤ 500) (i : Issue)
    (hfind : issues.find? (fun j => j.id == id) = some i) :
    flagIssue issues id reason flagger now =
      (.ok (applyFlag reason flagger now i),
       issues.map (fun j =>
         if j.id == id then applyFlag reason flagger now j else j)) := by
  unfold flagIssue
  rw [if_neg (by simp [hr, hf]), hfind]
  simp [not_lt.mpr hlen]

/-- Updating the matched record in place moves `find?` to the updated
record, provided the update preserves the id. -/
theorem find?_map_update (l : List Issue) (id : String) (g : Issue → Issue)
    (hg : ∀ j, (g j).id = j.id) (i : Issue)
    (hfind : l.find? (fun j => j.id == id) = some i) :
    (l.map (fun j => if j.id == id then g j else j)).find?
      (fun j => j.id == id) = some (g i) := by
  induction l with
  | nil => simp at hfind
  | cons hd tl ih =>
    cases h : (hd.id == id) with
    | true =>
      simp only [List.find?, h] at hfind
      obtain rfl : hd = i := Option.some.inj hfind
      simp [List.map_cons, List.find?, h, hg hd]
    | false =>
      simp only [List.find?, h] at hfind
      simp only [List.map_cons, List.find?, h]
      simpa [h] using ih hfind

/-- C3 counterexample: the claim says that with threshold 3 an issue
flagged by only one or two distinct flaggers is not hidden; in the code the
very first flag call already sets `isFlagged = true` (the bit that hides
the issue from the public listing), and after a second distinct flagger it
is still set with no count anywhere. -/
theorem C3_hidden_before_threshold :
    ((flagIssue [sampleIssue] "issue1" "spam" "userA" 1).2.find?
        (fun j => j.id == "issue1")).map (fun j => j.isFlagged) =
      some true ∧
    ((flagIssue (flagIssue [sampleIssue] "issue1" "spam" "userA" 1).2
        "issue1" "spam" "userB" 2).2.find?
        (fun j => j.id == "issue1")).map (fun j => j.isFlagged) =
      some true :=
  ⟨rfl, rfl⟩

/-- C3 (amended): there is no flag counter or threshold — every successful
flag call (truthy reason and flagger, reason within the 500-character
validator) immediately sets `isFlagged = true` on the matched issue,
regardless of how many distinct flaggers came before, and records only the
latest flagger in the single `flaggedBy` slot; the flag stays set under
further flags (each later flag again writes `isFlagged = true`), and no
clear-flags endpoint exists in the server. -/
theorem C3_first_flag_hides (issues : List Issue)
    (id reason flagger : String) (now : Nat)
    (hr : reason ≠ "") (hf : flagger ≠ "") (hlen : reason.length ≤ 500)
    (i : Issue) (hfind : issues.find? (fun j => j.id == id) = some i) :
    flagIssue issues id reason flagger now =
      (.ok (applyFlag reason flagger now i),
       issues.map (fun j =>
         if j.id == id then applyFlag reason flagger now j else j)) ∧
    (applyFlag reason flagger now i).isFlagged = true ∧
    (applyFlag reason flagger now i).flaggedBy = some flagger :=
  ⟨flagIssue_eq issues id reason flagger now hr hf hlen i hfind, rfl, rfl⟩

/-- Witness for C3: the first flagger on a fresh issue immediately hides
it. -/
theorem C3_first_flag_hides_witness :
    (("spam" : String) ≠ "" ∧ ("userA" : String) ≠ "" ∧
     ("spam" : String).length ≤ 500 ∧
     [sampleIssue].find? (fun j => j.id == "issue1") = some sampleIssue ∧
     sampleIssue.isFlagged = false) ∧
    (applyFlag "spam" "userA" 1 sampleIssue).isFlagged = true :=
  ⟨⟨by decide, by decide, by decide, rfl, rfl⟩,
   (C3_first_flag_hides [sampleIssue] "issue1" "spam" "userA" 1
     (by decide) (by decide) (by decide) sampleIssue rfl).2.1⟩

/-- C4 counterexample: the claim says a second flag by the same flagger
fails with `DuplicateFlag` and leaves the record unchanged; the handler
accepts it and simply overwrites the flag fields. -/
theorem C4_duplicate_flag_succeeds :
    (flagIssue (flagIssue [sampleIssue] "issue1" "spam" "userA" 1).2
        "issue1" "dup" "userA" 2).1 =
      FlagResult.ok
        { sampleIssue with
            isFlagged := true
            flaggedReason := some "dup"
            flaggedBy := some "userA"
            flaggedAt := some 2 } :=
  rfl

/-- C4 (amended): the served flag path has no duplicate guard — a second
flag call by the same flagger succeeds like the first and overwrites the
single `flaggedBy`/`flaggedReason`/`flaggedAt` slot (the issue document has
no flag set and no `flagCount`; the unused relational migration's
`unique(issue_id, flagger_user_id)` constraint never runs on this path). -/
theorem C4_no_duplicate_guard (issues : List Issue) (id r1 r2 u : String)
    (now1 now2 : Nat) (h1 : r1 ≠ "") (h2 : r2 ≠ "") (hu : u ≠ "")
    (hl1 : r1.length ≤ 500) (hl2 : r2.length ≤ 500) (i : Issue)
    (hfind : issues.find? (fun j => j.id == id) = some i) :
    (applyFlag r1 u now1 i).flaggedBy = some u ∧
    (flagIssue (flagIssue issues id r1 u now1).2 id r2 u now2).1 =
      .ok (applyFlag r2 u now2 (applyFlag r1 u now1 i)) ∧
    (applyFlag r2 u now2 (applyFlag r1 u now1 i)).flaggedBy = some u := by
  have hfind2 : (flagIssue issues id r1 u now1).2.find?
      (fun j => j.id == id) = some (applyFlag r1 u now1 i) := by
    rw [flagIssue_eq issues id r1 u now1 h1 hu hl1 i hfind]
    exact find?_map_update issues id (applyFlag r1 u now1) (fun j => rfl) i
      hfind
  exact ⟨rfl,
    by rw [flagIssue_eq _ id r2 u now2 h2 hu hl2 _ hfind2], rfl⟩

/-- Witness for C4: the same flagger flags twice; the second call succeeds
and keeps the record flagged. -/
theorem C4_no_duplicate_guard_witness :
    (("spam" : String) ≠ "" ∧ ("dup" : String) ≠ "" ∧
     ("userA" : String) ≠ "" ∧
     [sampleIssue].find? (fun j => j.id == "issue1") = some sampleIssue) ∧
    ((applyFlag "spam" "userA" 1 sampleIssue).flaggedBy = some "userA" ∧
     (flagIssue (flagIssue [sampleIssue] "issue1" "spam" "userA" 1).2
        "issue1" "dup" "userA" 2).1 =
       .ok (applyFlag "dup" "userA" 2 (applyFlag "spam" "userA" 1 sampleIssue)) ∧
     (applyFlag "dup" "userA" 2
        (applyFlag "spam" "userA" 1 sampleIssue)).flaggedBy = some "userA") :=
  ⟨⟨by decide, by decide, by decide, rfl⟩,
   C4_no_duplicate_guard [sampleIssue] "issue1" "spam" "dup" "userA" 1 2
     (by decide) (by decide) (by decide) (by decide) (by decide)
     sampleIssue rfl⟩

/-! ## C7 — listing: sorted and flag-filtered, but geo parameters ignored -/

/-- Each optional query conjunct only narrows the candidate list. -/
theorem applyOptFilter_subset (c : Bool) (g : Issue → Bool)
    (l : List Issue) : ∀ x ∈ applyOptFilter c g l, x ∈ l := by
  intro x hx
  unfold applyOptFilter at hx
  split at hx
  · exact List.filter_subset' l hx
  · exact hx

/-- Without a truthy `userId`, every document matching the public query has
`isFlagged = false`. -/
theorem mem_publicQueryMatches_not_flagged (tm : String → Issue → Bool)
    (issues : List Issue) (q : IssuesQuery) :
    ∀ x ∈ publicQueryMatches tm issues q,
      truthy q.userId = false → x.isFlagged = false := by
  intro x hx hid
  have h1 := applyOptFilter_subset _ _ _ x hx
  have h2 := applyOptFilter_subset _ _ _ x h1
  have h3 := applyOptFilter_subset _ _ _ x h2
  have h4 := applyOptFilter_subset _ _ _ x h3
  rw [hid] at h4
  simp only [Bool.false_eq_true, if_false] at h4
  rw [List.mem_filter] at h4
  simpa using h4.2

/-- C7 (amended): the public listing is sorted by `createdAt` descending
and — when no `userId` filter is given — contains only unflagged issues,
while the admin listing applies no flag filter at all (with trivial
filters it is exactly the sorted, paginated collection); however the
`latitude`/`longitude`/`radius` parameters have no effect on the result —
no `isWithinRadius` filtering is performed. -/
theorem C7_listing_behavior (tm : String → Issue → Bool)
    (issues : List Issue) (q : IssuesQuery) (page limit : Nat) :
    List.Pairwise createdAtDesc (getIssues tm issues q) ∧
    (truthy q.userId = false →
      ∀ i ∈ getIssues tm issues q, i.isFlagged = false) ∧
    getIssues tm issues
        { q with latitude := none, longitude := none, radius := none } =
      getIssues tm issues q ∧
    getAdminIssues tm issues ⟨page, limit, none, none, none, none⟩ =
      ((sortByCreatedAtDesc issues).drop ((page - 1) * limit)).take limit := by
  refine ⟨?_, ?_, rfl, rfl⟩
  · exact (List.sorted_insertionSort createdAtDesc
      (publicQueryMatches tm issues q)).sublist
      ((List.take_sublist _ _).trans (List.drop_sublist _ _))
  · intro hid i hi
    have h1 : i ∈ sortByCreatedAtDesc (publicQueryMatches tm issues q) :=
      List.mem_of_mem_drop (List.mem_of_mem_take hi)
    have h2 : i ∈ publicQueryMatches tm issues q :=
      (List.perm_insertionSort createdAtDesc _).mem_iff.mp h1
    exact mem_publicQueryMatches_not_flagged tm issues q i h2 hid

/-- Witness for C7: on a collection holding one flagged and one unflagged
issue, the public listing without `userId` exposes no flagged record. -/
theorem C7_listing_behavior_witness :
    truthy (none : Option String) = false ∧
    ∀ i ∈ getIssues (fun _ _ => false) [c7flagged, sampleIssue] c7q,
      i.isFlagged = false :=
  ⟨rfl, (C7_listing_behavior (fun _ _ => false) [c7flagged, sampleIssue]
    c7q 1 10).2.1 rfl⟩

/-- C7 counterexample: the claim says that when a center and radius are
supplied the listing returns only issues within the radius (via
`isWithinRadius`); supplying center `(0,0)` with radius 1 km still returns
an issue about 6371·π ≈ 20 015 km away, because the handler ignores the
`latitude`/`longitude`/`radius` parameters. -/
theorem C7_geo_filter_ignored :
    getIssues (fun _ _ => false) [c7far] c7geoQuery = [c7far] ∧
    ¬ isWithinRadius ⟨0, 0⟩ ⟨0, 180⟩ 1 := by
  constructor
  · rfl
  · unfold isWithinRadius
    have hd : calculateDistance ⟨0, 0⟩ ⟨0, 180⟩ = 6371 * Real.pi := by
      unfold calculateDistance getDistanceMeters toRad
      dsimp only
      rw [show ((180 : ℝ) - 0) * Real.pi / 180 / 2 = Real.pi / 2 by ring,
        show ((0 : ℝ) - 0) * Real.pi / 180 / 2 = 0 by ring,
        show ((0 : ℝ)) * Real.pi / 180 = 0 by ring,
        Real.sin_zero, Real.cos_zero, Real.sin_pi_div_two]
      norm_num [Real.sqrt_one, Real.arcsin_one]
      ring
    rw [hd]
    intro hle
    nlinarith [Real.pi_gt_three]

end CivicTrack
